import Mathlib

/-!
Shallow embedding of the two decision engines of gfx/thebes/gfxOS2Platform.cpp:
the glyph-coverage resolver (gfxOS2Platform::FindFontForChar together with the
negative-coverage bit set mCodepointsWithNoFonts and gfxOS2Platform::UpdateFontList)
and the offscreen-surface backend selector (gfxOS2Platform::CreateOffscreenSurface).
External collaborators (fontconfig catalog, the font-instance cache, the
FreeType/cairo face-locking API and the cairo stride computation) are inputs,
packaged in an environment record.
-/

/-- The negative-coverage bit set, gfxSparseBitSet mCodepointsWithNoFonts:
a per-codepoint boolean map. -/
def SparseBitSet : Type := Nat → Bool

/-- gfxSparseBitSet::test: read the bit of one codepoint. -/
def SparseBitSet.test (m : SparseBitSet) (c : Nat) : Bool := m c

/-- gfxSparseBitSet::set: set the bit of one codepoint. -/
def SparseBitSet.set (m : SparseBitSet) (c : Nat) : SparseBitSet :=
  fun x => if x = c then true else m x

/-- gfxSparseBitSet::SetRange: set every bit of an inclusive range. -/
def SparseBitSet.setRange (m : SparseBitSet) (a b : Nat) : SparseBitSet :=
  fun x => if a ≤ x ∧ x ≤ b then true else m x

/-- gfxSparseBitSet::reset: clear every bit. -/
def SparseBitSet.reset (_ : SparseBitSet) : SparseBitSet := fun _ => false

/-- The bit set with no bit set, the state of a freshly constructed member. -/
def emptyCache : SparseBitSet := fun _ => false

/-- An FT_Face as seen by FindFontForChar: whether face->charmap is non-null,
and FT_Get_Char_Index on that face (0 means no glyph). -/
structure Face where
  hasCharmap : Bool
  charIndex : Nat → Nat

/-- The external collaborators consulted by one FindFontForChar call.
fontList is the outcome of GetFontList for the reference style's language
(error models a failed nsresult); getOrMakeFont is
gfxOS2Font::GetOrMakeFont(family, style), returning a font instance
identified by name; lockFace is cairo_ft_scaled_font_lock_face on that
instance's scaled font (none models a null FT_Face). -/
structure Env where
  fontList : Except Unit (List String)
  getOrMakeFont : String → Option String
  lockFace : String → Option Face

/-- Observable collaborator events of one FindFontForChar call, with the
candidate's index in the catalog list.  A lockFace event is recorded only
when the lock call returned a non-null face (a lock was acquired). -/
inductive Event where
  | catalogCall : Event
  | getOrMake : Nat → Event
  | lockFace : Nat → Event
  | unlockFace : Nat → Event
deriving DecidableEq

/-- Index carried by an event, if any. -/
def evIdx : Event → Option Nat
  | Event.catalogCall => none
  | Event.getOrMake i => some i
  | Event.lockFace i => some i
  | Event.unlockFace i => some i

/-- Result of one FindFontForChar call: the returned font (by instance name),
the value of mCodepointsWithNoFonts after the call, and the event trace. -/
structure ResolveOut where
  result : Option String
  cache : SparseBitSet
  trace : List Event

/-- The candidate loop of FindFontForChar (for i = 3; i < fontList.Length; i++),
embedded as structural recursion over the remaining candidates, carrying the
loop index i for the trace.  Branches, in source order:
GetOrMakeFont none -> continue; lock_face null -> continue (no lock held);
face without charmap -> unlock and continue; glyph id 0 -> continue, and the
source does NOT call cairo_ft_scaled_font_unlock_face on this path;
glyph id nonzero -> unlock and return the font. -/
def searchList (env : Env) (ch : Nat) : Nat → List String → Option String × List Event
  | _, [] => (none, [])
  | i, fam :: rest =>
    match env.getOrMakeFont fam with
    | none =>
      ((searchList env ch (i + 1) rest).1,
        Event.getOrMake i :: (searchList env ch (i + 1) rest).2)
    | some font =>
      match env.lockFace font with
      | none =>
        ((searchList env ch (i + 1) rest).1,
          Event.getOrMake i :: (searchList env ch (i + 1) rest).2)
      | some face =>
        if face.hasCharmap = false then
          ((searchList env ch (i + 1) rest).1,
            Event.getOrMake i :: Event.lockFace i :: Event.unlockFace i ::
              (searchList env ch (i + 1) rest).2)
        else if face.charIndex ch = 0 then
          ((searchList env ch (i + 1) rest).1,
            Event.getOrMake i :: Event.lockFace i :: (searchList env ch (i + 1) rest).2)
        else
          (some font, [Event.getOrMake i, Event.lockFace i, Event.unlockFace i])

/-- gfxOS2Platform::FindFontForChar: cached-negative fast path, one GetFontList
call, the candidate loop starting at index 3, and (on both the failed-call path
and the exhausted-loop path) mCodepointsWithNoFonts.set(aCh). -/
def findFontForChar (env : Env) (cache : SparseBitSet) (ch : Nat) : ResolveOut :=
  if SparseBitSet.test cache ch = true then
    { result := none, cache := cache, trace := [] }
  else
    match env.fontList with
    | Except.error _ =>
      { result := none, cache := SparseBitSet.set cache ch, trace := [Event.catalogCall] }
    | Except.ok list =>
      match (searchList env ch 3 (list.drop 3)).1 with
      | some font =>
        { result := some font, cache := cache,
          trace := Event.catalogCall :: (searchList env ch 3 (list.drop 3)).2 }
      | none =>
        { result := none, cache := SparseBitSet.set cache ch,
          trace := Event.catalogCall :: (searchList env ch 3 (list.drop 3)).2 }

/-- gfxOS2Platform::UpdateFontList: reset the bit set, perform the external
catalog refresh (its outcome is the parameter externalOk, modelling the
nsresult of sFontconfigUtils->UpdateFontList()), then pre-set the two control
ranges; the external outcome is returned unchanged. -/
def updateFontList (cache : SparseBitSet) (externalOk : Bool) : SparseBitSet × Bool :=
  let c0 := SparseBitSet.reset cache
  let rv := externalOk
  let c1 := SparseBitSet.setRange c0 0x00 0x1f
  let c2 := SparseBitSet.setRange c1 0x7f 0x9f
  (c2, rv)

/-- Modelled from the spec: the subsystem initialization sequence is not under
src/ (the constructor in the source does not touch mCodepointsWithNoFonts; the
initial font-list load that applies the presets happens in caller code outside
the provided file).  Per the spec, at initialization the two control ranges are
pre-set exactly as on refresh, so initialization is embedded as the
UpdateFontList reset applied to the empty bit set. -/
def initCache : SparseBitSet := (updateFontList emptyCache true).1

/-- Success condition of one candidate iteration of the FindFontForChar loop:
an instance is obtained, its face locks non-null, the face has a charmap, and
the charmap maps the codepoint to a nonzero glyph id. -/
def famMatches (env : Env) (ch : Nat) (fam : String) : Bool :=
  match env.getOrMakeFont fam with
  | none => false
  | some font =>
    match env.lockFace font with
    | none => false
    | some face => face.hasCharmap && decide (¬ face.charIndex ch = 0)

/-- Backend chosen by gfxOS2Platform::CreateOffscreenSurface:
lightweight is gfxImageSurface (libc heap), native is gfxOS2Surface. -/
inductive BackendChoice where
  | lightweight : BackendChoice
  | native : BackendChoice
deriving DecidableEq

/-- The gfxIntSize argument of CreateOffscreenSurface. -/
structure GfxIntSize where
  width : Int
  height : Int

/-- gfxOS2Platform::CreateOffscreenSurface: stride is computed by the external
cairo_format_stride_for_width (here the collaborator strideOf, already
specialized to the format chosen from the content type), and the surface is a
gfxImageSurface when stride * height <= 4096, a gfxOS2Surface otherwise. -/
def createOffscreenSurface (strideOf : Int → Int) (aSize : GfxIntSize) : BackendChoice :=
  let stride := strideOf aSize.width
  if stride * aSize.height ≤ 4096 then BackendChoice.lightweight else BackendChoice.native

/-! Concrete collaborator environments used by counterexamples and witnesses. -/

/-- Environment whose catalog call fails. -/
def envErr : Env :=
  { fontList := Except.error ()
    getOrMakeFont := fun _ => none
    lockFace := fun _ => none }

/-- Environment whose catalog returns only the three generic entries. -/
def envShort : Env :=
  { fontList := Except.ok ["serif", "sansserif", "monospace"]
    getOrMakeFont := fun _ => none
    lockFace := fun _ => none }

/-- Face covering codepoint 65 with glyph id 7. -/
def faceB : Face := { hasCharmap := true, charIndex := fun c => if c = 65 then 7 else 0 }

/-- Environment where catalog entry 3 yields no instance and entry 4 matches
codepoint 65. -/
def envMatch : Env :=
  { fontList := Except.ok ["serif", "sansserif", "monospace", "famA", "famB"]
    getOrMakeFont := fun f => if f = "famB" then some "fontB" else none
    lockFace := fun f => if f = "fontB" then some faceB else none }

/-- Face with a charmap that maps every codepoint to glyph id 0. -/
def faceLeak : Face := { hasCharmap := true, charIndex := fun _ => 0 }

/-- Environment where catalog entry 3 yields an instance whose face locks with
a charmap but covers nothing. -/
def envLeak : Env :=
  { fontList := Except.ok ["serif", "sansserif", "monospace", "famA"]
    getOrMakeFont := fun f => if f = "famA" then some "fontA" else none
    lockFace := fun f => if f = "fontA" then some faceLeak else none }

/-- Cache with exactly the bit of codepoint 9 set. -/
def cachedCache : SparseBitSet := SparseBitSet.set emptyCache 9

/-! Helper lemmas. -/

theorem test_set_self (m : SparseBitSet) (c : Nat) :
    SparseBitSet.test (SparseBitSet.set m c) c = true := by
  simp [SparseBitSet.test, SparseBitSet.set]

theorem test_set_of_test (m : SparseBitSet) (c x : Nat)
    (h : SparseBitSet.test m x = true) :
    SparseBitSet.test (SparseBitSet.set m c) x = true := by
  simp only [SparseBitSet.test, SparseBitSet.set] at *
  by_cases hx : x = c <;> simp [hx, h]

theorem updateFontList_presets (m : SparseBitSet) (b : Bool) (c : Nat)
    (h : c ≤ 0x1f ∨ (0x7f ≤ c ∧ c ≤ 0x9f)) :
    SparseBitSet.test (updateFontList m b).1 c = true := by
  by_cases h2 : 0x7f ≤ c ∧ c ≤ 0x9f
  · simp [updateFontList, SparseBitSet.test, SparseBitSet.setRange, h2]
  · have h1 : c ≤ 0x1f := by
      rcases h with h | h
      · exact h
      · exact absurd h h2
    simp [updateFontList, SparseBitSet.test, SparseBitSet.setRange, SparseBitSet.reset,
      h2, h1]

theorem findFontForChar_cached (env : Env) (cache : SparseBitSet) (ch : Nat)
    (h : SparseBitSet.test cache ch = true) :
    findFontForChar env cache ch = { result := none, cache := cache, trace := [] } := by
  unfold findFontForChar
  rw [if_pos h]

theorem findFontForChar_err_eq (env : Env) (cache : SparseBitSet) (ch : Nat)
    (hc : SparseBitSet.test cache ch = false) (e : Unit)
    (hfl : env.fontList = Except.error e) :
    findFontForChar env cache ch =
      { result := none, cache := SparseBitSet.set cache ch,
        trace := [Event.catalogCall] } := by
  unfold findFontForChar
  rw [if_neg (by simp [hc]), hfl]

theorem findFontForChar_ok_some_eq (env : Env) (cache : SparseBitSet) (ch : Nat)
    (list : List String) (f : String)
    (hc : SparseBitSet.test cache ch = false)
    (hfl : env.fontList = Except.ok list)
    (hr : (searchList env ch 3 (list.drop 3)).1 = some f) :
    findFontForChar env cache ch =
      { result := some f, cache := cache,
        trace := Event.catalogCall :: (searchList env ch 3 (list.drop 3)).2 } := by
  unfold findFontForChar
  rw [if_neg (by simp [hc]), hfl]
  split
  · rename_i f2 heq
    simp at heq
  · rename_i list2 heq
    injection heq with h3
    subst h3
    split
    · rename_i f2 heq2
      rw [hr] at heq2
      injection heq2 with h2
      subst h2
      rfl
    · rename_i heq2
      rw [hr] at heq2
      simp at heq2

theorem findFontForChar_ok_none_eq (env : Env) (cache : SparseBitSet) (ch : Nat)
    (list : List String)
    (hc : SparseBitSet.test cache ch = false)
    (hfl : env.fontList = Except.ok list)
    (hr : (searchList env ch 3 (list.drop 3)).1 = none) :
    findFontForChar env cache ch =
      { result := none, cache := SparseBitSet.set cache ch,
        trace := Event.catalogCall :: (searchList env ch 3 (list.drop 3)).2 } := by
  unfold findFontForChar
  rw [if_neg (by simp [hc]), hfl]
  split
  · rename_i f2 heq
    simp at heq
  · rename_i list2 heq
    injection heq with h3
    subst h3
    split
    · rename_i f2 heq2
      rw [hr] at heq2
      simp at heq2
    · rfl

theorem findFontForChar_cache_cases (env : Env) (cache : SparseBitSet) (ch : Nat) :
    (findFontForChar env cache ch).cache = cache ∨
    (findFontForChar env cache ch).cache = SparseBitSet.set cache ch := by
  by_cases hc : SparseBitSet.test cache ch = true
  · rw [findFontForChar_cached env cache ch hc]
    exact Or.inl rfl
  · simp only [Bool.not_eq_true] at hc
    cases hfl : env.fontList with
    | error er =>
      rw [findFontForChar_err_eq env cache ch hc er hfl]
      exact Or.inr rfl
    | ok list =>
      cases hr : (searchList env ch 3 (list.drop 3)).1 with
      | none =>
        rw [findFontForChar_ok_none_eq env cache ch list hc hfl hr]
        exact Or.inr rfl
      | some f =>
        rw [findFontForChar_ok_some_eq env cache ch list f hc hfl hr]
        exact Or.inl rfl

theorem findFontForChar_none_sets (env : Env) (cache : SparseBitSet) (ch : Nat)
    (h : (findFontForChar env cache ch).result = none) :
    SparseBitSet.test (findFontForChar env cache ch).cache ch = true := by
  by_cases hc : SparseBitSet.test cache ch = true
  · rw [findFontForChar_cached env cache ch hc]
    exact hc
  · simp only [Bool.not_eq_true] at hc
    cases hfl : env.fontList with
    | error er =>
      rw [findFontForChar_err_eq env cache ch hc er hfl]
      exact test_set_self cache ch
    | ok list =>
      cases hr : (searchList env ch 3 (list.drop 3)).1 with
      | none =>
        rw [findFontForChar_ok_none_eq env cache ch list hc hfl hr]
        exact test_set_self cache ch
      | some f =>
        rw [findFontForChar_ok_some_eq env cache ch list f hc hfl hr] at h
        simp at h

theorem searchList_trace_idx_ge (env : Env) (ch : Nat) (l : List String) :
    ∀ (i : Nat) (e : Event), e ∈ (searchList env ch i l).2 →
      ∀ j, evIdx e = some j → i ≤ j := by
  induction l with
  | nil =>
    intro i e he j hj
    simp [searchList] at he
  | cons fam rest ih =>
    intro i e he j hj
    simp only [searchList] at he
    split at he
    · simp at he
      rcases he with rfl | he
      · simp [evIdx] at hj; omega
      · have := ih (i + 1) e he j hj; omega
    · split at he
      · simp at he
        rcases he with rfl | he
        · simp [evIdx] at hj; omega
        · have := ih (i + 1) e he j hj; omega
      · split at he
        · simp at he
          rcases he with rfl | rfl | rfl | he
          · simp [evIdx] at hj; omega
          · simp [evIdx] at hj; omega
          · simp [evIdx] at hj; omega
          · have := ih (i + 1) e he j hj; omega
        · split at he
          · simp at he
            rcases he with rfl | rfl | he
            · simp [evIdx] at hj; omega
            · simp [evIdx] at hj; omega
            · have := ih (i + 1) e he j hj; omega
          · simp at he
            rcases he with rfl | rfl | rfl
            · simp [evIdx] at hj; omega
            · simp [evIdx] at hj; omega
            · simp [evIdx] at hj; omega

theorem findFontForChar_trace_idx_ge (env : Env) (cache : SparseBitSet) (ch : Nat)
    (e : Event) (he : e ∈ (findFontForChar env cache ch).trace)
    (j : Nat) (hj : evIdx e = some j) : 3 ≤ j := by
  by_cases hc : SparseBitSet.test cache ch = true
  · rw [findFontForChar_cached env cache ch hc] at he
    simp at he
  · simp only [Bool.not_eq_true] at hc
    cases hfl : env.fontList with
    | error er =>
      rw [findFontForChar_err_eq env cache ch hc er hfl] at he
      simp at he
      subst he
      simp [evIdx] at hj
    | ok list =>
      cases hr : (searchList env ch 3 (list.drop 3)).1 with
      | none =>
        rw [findFontForChar_ok_none_eq env cache ch list hc hfl hr] at he
        simp at he
        rcases he with rfl | he
        · simp [evIdx] at hj
        · exact searchList_trace_idx_ge env ch (list.drop 3) 3 e he j hj
      | some f =>
        rw [findFontForChar_ok_some_eq env cache ch list f hc hfl hr] at he
        simp at he
        rcases he with rfl | he
        · simp [evIdx] at hj
        · exact searchList_trace_idx_ge env ch (list.drop 3) 3 e he j hj

theorem searchList_first_match (env : Env) (ch : Nat) (l : List String) :
    ∀ (i : Nat) (font : String), (searchList env ch i l).1 = some font →
      ∃ k fam, l.get? k = some fam ∧
        env.getOrMakeFont fam = some font ∧
        famMatches env ch fam = true ∧
        ∀ j fam2, j < k → l.get? j = some fam2 → famMatches env ch fam2 = false := by
  induction l with
  | nil =>
    intro i font h
    simp [searchList] at h
  | cons fam rest ih =>
    intro i font h
    simp only [searchList] at h
    split at h
    · rename_i hg
      simp only [] at h
      obtain ⟨k, fam1, hk1, hk2, hk3, hk4⟩ := ih (i + 1) font h
      refine ⟨k + 1, fam1, by simpa using hk1, hk2, hk3, ?_⟩
      intro j fam2 hj hget
      cases j with
      | zero =>
        simp only [List.get?_cons_zero, Option.some.injEq] at hget
        subst hget
        simp [famMatches, hg]
      | succ j2 =>
        exact hk4 j2 fam2 (by omega) (by simpa using hget)
    · rename_i font0 hg
      split at h
      · rename_i hl
        simp only [] at h
        obtain ⟨k, fam1, hk1, hk2, hk3, hk4⟩ := ih (i + 1) font h
        refine ⟨k + 1, fam1, by simpa using hk1, hk2, hk3, ?_⟩
        intro j fam2 hj hget
        cases j with
        | zero =>
          simp only [List.get?_cons_zero, Option.some.injEq] at hget
          subst hget
          simp [famMatches, hg, hl]
        | succ j2 =>
          exact hk4 j2 fam2 (by omega) (by simpa using hget)
      · rename_i face hl
        split at h
        · rename_i hcm
          simp only [] at h
          obtain ⟨k, fam1, hk1, hk2, hk3, hk4⟩ := ih (i + 1) font h
          refine ⟨k + 1, fam1, by simpa using hk1, hk2, hk3, ?_⟩
          intro j fam2 hj hget
          cases j with
          | zero =>
            simp only [List.get?_cons_zero, Option.some.injEq] at hget
            subst hget
            simp [famMatches, hg, hl, hcm]
          | succ j2 =>
            exact hk4 j2 fam2 (by omega) (by simpa using hget)
        · rename_i hcm
          split at h
          · rename_i hgid
            simp only [] at h
            obtain ⟨k, fam1, hk1, hk2, hk3, hk4⟩ := ih (i + 1) font h
            refine ⟨k + 1, fam1, by simpa using hk1, hk2, hk3, ?_⟩
            intro j fam2 hj hget
            cases j with
            | zero =>
              simp only [List.get?_cons_zero, Option.some.injEq] at hget
              subst hget
              simp [famMatches, hg, hl, hgid]
            | succ j2 =>
              exact hk4 j2 fam2 (by omega) (by simpa using hget)
          · rename_i hgid
            simp only [Option.some.injEq] at h
            subst h
            refine ⟨0, fam, rfl, hg, ?_, ?_⟩
            · have hcm2 : face.hasCharmap = true := by
                cases hv : face.hasCharmap
                · exact absurd hv hcm
                · rfl
              simp [famMatches, hg, hl, hcm2, decide_eq_true hgid]
            · intro j fam2 hj hget
              omega

/-! Claim theorems. -/

/-- Claim C1, counterexample: with an empty cache and a failing catalog call,
FindFontForChar at codepoint 65 returns none but DOES set the negative-cache
bit for 65, contradicting the claim that the cache is left unmutated. -/
theorem c1_error_path_cex :
    SparseBitSet.test emptyCache 65 = false ∧
    (findFontForChar envErr emptyCache 65).result = none ∧
    SparseBitSet.test (findFontForChar envErr emptyCache 65).cache 65 = true := by
  decide

/-- Claim C1 as amended: when the catalog call fails and the codepoint is not
cached, FindFontForChar returns none and performs exactly the same cache
mutation as the exhausted-search path: it sets the bit of that codepoint
(the set call sits outside the success test in the source). -/
theorem c1_error_path_amended (env : Env) (cache : SparseBitSet) (ch : Nat) (e : Unit)
    (hc : SparseBitSet.test cache ch = false)
    (he : env.fontList = Except.error e) :
    (findFontForChar env cache ch).result = none ∧
    (findFontForChar env cache ch).cache = SparseBitSet.set cache ch ∧
    (findFontForChar env cache ch).trace = [Event.catalogCall] := by
  unfold findFontForChar
  rw [if_neg (by simp [hc]), he]
  exact ⟨rfl, rfl, rfl⟩

/-- Witness for the amended C1 at the concrete failing-catalog environment. -/
theorem c1_error_path_amended_witness :
    (findFontForChar envErr emptyCache 65).result = none ∧
    (findFontForChar envErr emptyCache 65).cache = SparseBitSet.set emptyCache 65 ∧
    (findFontForChar envErr emptyCache 65).trace = [Event.catalogCall] :=
  c1_error_path_amended envErr emptyCache 65 () rfl rfl

/-- Claim C2: the code violates the lock-release discipline the claim states.
At a catalog whose entry 3 yields an instance whose face locks with a charmap
mapping the codepoint to glyph id 0, the call acquires the face lock
(lockFace 3 is in the trace) but never releases it (no unlockFace 3 event):
the source falls through to the next iteration without the unlock call. -/
theorem c2_lock_leak_shown :
    Event.lockFace 3 ∈ (findFontForChar envLeak emptyCache 65).trace ∧
    Event.unlockFace 3 ∉ (findFontForChar envLeak emptyCache 65).trace ∧
    (findFontForChar envLeak emptyCache 65).result = none := by
  decide

/-- Claim C3: CreateOffscreenSurface chooses the lightweight gfxImageSurface
backend exactly when stride * height is at most 4096 bytes and the native
gfxOS2Surface backend otherwise; a footprint of exactly 4096 (64 * 64) gives
lightweight and a footprint of exactly 4097 (17 * 241) gives native. -/
theorem c3_surface_threshold (strideOf : Int → Int) (aSize : GfxIntSize) :
    (createOffscreenSurface strideOf aSize = BackendChoice.lightweight ↔
      strideOf aSize.width * aSize.height ≤ 4096) ∧
    (createOffscreenSurface strideOf aSize = BackendChoice.native ↔
      ¬ strideOf aSize.width * aSize.height ≤ 4096) ∧
    createOffscreenSurface (fun _ => 64) ⟨64, 64⟩ = BackendChoice.lightweight ∧
    createOffscreenSurface (fun _ => 17) ⟨17, 241⟩ = BackendChoice.native := by
  refine ⟨?_, ?_, by decide, by decide⟩
  · unfold createOffscreenSurface
    by_cases h : strideOf aSize.width * aSize.height ≤ 4096 <;> simp [h]
  · unfold createOffscreenSurface
    by_cases h : strideOf aSize.width * aSize.height ≤ 4096 <;> simp [h]

/-- Claim C4: every codepoint in the two control ranges 0x00-0x1f and 0x7f-0x9f
tests positive in the negative cache immediately after initialization and
immediately after any UpdateFontList reset, whatever the prior cache and the
external refresh outcome; the test itself is a pure read of the bit set. -/
theorem c4_control_presets (c : Nat) (cache : SparseBitSet) (rv : Bool)
    (h : c ≤ 0x1f ∨ (0x7f ≤ c ∧ c ≤ 0x9f)) :
    SparseBitSet.test initCache c = true ∧
    SparseBitSet.test (updateFontList cache rv).1 c = true :=
  ⟨updateFontList_presets emptyCache true c h, updateFontList_presets cache rv c h⟩

/-- Witness for C4 at the control codepoint 0x7f after a failed refresh. -/
theorem c4_control_presets_witness :
    SparseBitSet.test initCache 0x7f = true ∧
    SparseBitSet.test (updateFontList emptyCache false).1 0x7f = true :=
  c4_control_presets 0x7f emptyCache false (Or.inr (by decide))

/-- Claim C5, counterexample: a previously-set negative bit for the non-control
codepoint 65 is cleared by UpdateFontList even when the external refresh fails,
contradicting the claim that a failed refresh leaves such bits set. -/
theorem c5_failed_refresh_cex :
    SparseBitSet.test (SparseBitSet.set emptyCache 65) 65 = true ∧
    (updateFontList (SparseBitSet.set emptyCache 65) false).2 = false ∧
    SparseBitSet.test (updateFontList (SparseBitSet.set emptyCache 65) false).1 65 = false := by
  decide

/-- Claim C5 as amended: the cache reset is tied to every refresh attempt, not
only successful ones.  UpdateFontList clears all bits before the external
refresh call and re-applies the two control presets after it, regardless of
the refresh outcome, so after any UpdateFontList call exactly the control-range
bits are set and the external outcome is propagated unchanged. -/
theorem c5_reset_every_refresh (cache : SparseBitSet) (rv : Bool) (c : Nat) :
    (updateFontList cache rv).2 = rv ∧
    SparseBitSet.test (updateFontList cache rv).1 c =
      (decide (c ≤ 0x1f) || decide (0x7f ≤ c ∧ c ≤ 0x9f)) := by
  constructor
  · rfl
  · by_cases h2 : 0x7f ≤ c ∧ c ≤ 0x9f <;> by_cases h1 : c ≤ 0x1f <;>
      simp [updateFontList, SparseBitSet.test, SparseBitSet.setRange, SparseBitSet.reset,
        h1, h2]

/-- Claim C6: a codepoint whose negative-cache bit is set resolves to none with
an empty event trace (no catalog and no instance-cache call); and whenever a
call returns none, any later call for the same codepoint against the resulting
cache, under any environment (any style), returns none with an empty trace. -/
theorem c6_negative_cache_fast_path (env env2 : Env) (cache : SparseBitSet) (ch : Nat) :
    (SparseBitSet.test cache ch = true →
      (findFontForChar env cache ch).result = none ∧
      (findFontForChar env cache ch).trace = []) ∧
    ((findFontForChar env cache ch).result = none →
      (findFontForChar env2 (findFontForChar env cache ch).cache ch).result = none ∧
      (findFontForChar env2 (findFontForChar env cache ch).cache ch).trace = []) := by
  constructor
  · intro h
    rw [findFontForChar_cached env cache ch h]
    exact ⟨rfl, rfl⟩
  · intro h
    have hset := findFontForChar_none_sets env cache ch h
    rw [findFontForChar_cached env2 _ ch hset]
    exact ⟨rfl, rfl⟩

/-- Witness for C6: codepoint 9 is cached, the first call returns none with no
events, and the follow-up call under a different environment does too. -/
theorem c6_negative_cache_fast_path_witness :
    ((findFontForChar envErr cachedCache 9).result = none ∧
      (findFontForChar envErr cachedCache 9).trace = []) ∧
    ((findFontForChar envMatch (findFontForChar envErr cachedCache 9).cache 9).result = none ∧
      (findFontForChar envMatch (findFontForChar envErr cachedCache 9).cache 9).trace = []) :=
  ⟨(c6_negative_cache_fast_path envErr envMatch cachedCache 9).1 (by decide),
   (c6_negative_cache_fast_path envErr envMatch cachedCache 9).2 (by decide)⟩

/-- Claim C7: no collaborator event for a catalog index below 3 ever appears in
a FindFontForChar trace (the first three generic entries are never consulted),
and with a catalog list of fewer than 4 entries every non-cached codepoint
resolves to none and gets its negative-cache bit set. -/
theorem c7_skip_generic_entries (env : Env) (cache : SparseBitSet) (ch : Nat)
    (list : List String) (i : Nat) (hi : i < 3) :
    (Event.getOrMake i ∉ (findFontForChar env cache ch).trace ∧
      Event.lockFace i ∉ (findFontForChar env cache ch).trace ∧
      Event.unlockFace i ∉ (findFontForChar env cache ch).trace) ∧
    (SparseBitSet.test cache ch = false → env.fontList = Except.ok list →
      list.length < 4 →
      (findFontForChar env cache ch).result = none ∧
      SparseBitSet.test (findFontForChar env cache ch).cache ch = true) := by
  refine ⟨⟨?_, ?_, ?_⟩, ?_⟩
  · intro hmem
    have := findFontForChar_trace_idx_ge env cache ch _ hmem i (by simp [evIdx])
    omega
  · intro hmem
    have := findFontForChar_trace_idx_ge env cache ch _ hmem i (by simp [evIdx])
    omega
  · intro hmem
    have := findFontForChar_trace_idx_ge env cache ch _ hmem i (by simp [evIdx])
    omega
  · intro hc hfl hlen
    have hdrop : list.drop 3 = [] := List.drop_eq_nil_of_le (by omega)
    have hr : (searchList env ch 3 (list.drop 3)).1 = none := by
      rw [hdrop]
      simp [searchList]
    rw [findFontForChar_ok_none_eq env cache ch list hc hfl hr]
    exact ⟨rfl, test_set_self cache ch⟩

/-- Witness for C7 with a three-entry catalog and index 0. -/
theorem c7_skip_generic_entries_witness :
    (Event.getOrMake 0 ∉ (findFontForChar envShort emptyCache 65).trace ∧
      Event.lockFace 0 ∉ (findFontForChar envShort emptyCache 65).trace ∧
      Event.unlockFace 0 ∉ (findFontForChar envShort emptyCache 65).trace) ∧
    ((findFontForChar envShort emptyCache 65).result = none ∧
      SparseBitSet.test (findFontForChar envShort emptyCache 65).cache 65 = true) :=
  ⟨(c7_skip_generic_entries envShort emptyCache 65 ["serif", "sansserif", "monospace"] 0
      (by decide)).1,
   (c7_skip_generic_entries envShort emptyCache 65 ["serif", "sansserif", "monospace"] 0
      (by decide)).2 (by decide) rfl (by decide)⟩

/-- Claim C8: a returned font instance is the one obtained from the first
catalog entry at an index of at least 3 whose candidate iteration succeeds
(instance obtained, face locked with a charmap, nonzero glyph id); every
earlier entry from index 3 on fails its iteration, so no later candidate is
preferred over an earlier match. -/
theorem c8_first_match (env : Env) (cache : SparseBitSet) (ch : Nat)
    (list : List String) (font : String)
    (hfl : env.fontList = Except.ok list)
    (h : (findFontForChar env cache ch).result = some font) :
    ∃ k fam, list.get? (3 + k) = some fam ∧
      env.getOrMakeFont fam = some font ∧
      famMatches env ch fam = true ∧
      ∀ j fam2, j < k → list.get? (3 + j) = some fam2 →
        famMatches env ch fam2 = false := by
  by_cases hc : SparseBitSet.test cache ch = true
  · rw [findFontForChar_cached env cache ch hc] at h
    simp at h
  · simp only [Bool.not_eq_true] at hc
    cases hr : (searchList env ch 3 (list.drop 3)).1 with
    | none =>
      rw [findFontForChar_ok_none_eq env cache ch list hc hfl hr] at h
      simp at h
    | some f =>
      rw [findFontForChar_ok_some_eq env cache ch list f hc hfl hr] at h
      simp at h
      subst h
      obtain ⟨k, fam, hk1, hk2, hk3, hk4⟩ :=
        searchList_first_match env ch (list.drop 3) 3 _ hr
      refine ⟨k, fam, ?_, hk2, hk3, ?_⟩
      · rw [← List.get?_drop]
        exact hk1
      · intro j fam2 hj hget
        refine hk4 j fam2 hj ?_
        rw [List.get?_drop]
        exact hget

/-- Witness for C8 at the concrete matching environment: the returned instance
comes from catalog entry 4, entry 3 having failed. -/
theorem c8_first_match_witness :
    ∃ k fam,
      (["serif", "sansserif", "monospace", "famA", "famB"] : List String).get? (3 + k) =
        some fam ∧
      envMatch.getOrMakeFont fam = some "fontB" ∧
      famMatches envMatch 65 fam = true ∧
      ∀ j fam2, j < k →
        (["serif", "sansserif", "monospace", "famA", "famB"] : List String).get? (3 + j) =
          some fam2 →
        famMatches envMatch 65 fam2 = false :=
  c8_first_match envMatch emptyCache 65 ["serif", "sansserif", "monospace", "famA", "famB"]
    "fontB" rfl (by decide)

/-- Claim C9: the negative cache is monotonic across FindFontForChar calls: any
bit set before a call is still set after it; a call only ever leaves the cache
unchanged or sets the bit of its own codepoint. -/
theorem c9_cache_monotonic (env : Env) (cache : SparseBitSet) (ch c : Nat)
    (h : SparseBitSet.test cache c = true) :
    SparseBitSet.test (findFontForChar env cache ch).cache c = true := by
  rcases findFontForChar_cache_cases env cache ch with hcc | hcc
  · rw [hcc]; exact h
  · rw [hcc]; exact test_set_of_test cache ch c h

/-- Witness for C9: the bit of codepoint 5 survives a successful resolution of
codepoint 65. -/
theorem c9_cache_monotonic_witness :
    SparseBitSet.test (findFontForChar envMatch (SparseBitSet.set emptyCache 5) 65).cache 5 =
      true :=
  c9_cache_monotonic envMatch (SparseBitSet.set emptyCache 5) 65 5 (by decide)

/-- Claim C10: whenever FindFontForChar returns a font instance, the negative
cache after the call is exactly the cache before the call. -/
theorem c10_success_no_mutation (env : Env) (cache : SparseBitSet) (ch : Nat) (font : String)
    (h : (findFontForChar env cache ch).result = some font) :
    (findFontForChar env cache ch).cache = cache := by
  by_cases hc : SparseBitSet.test cache ch = true
  · rw [findFontForChar_cached env cache ch hc] at h
    simp at h
  · simp only [Bool.not_eq_true] at hc
    cases hfl : env.fontList with
    | error er =>
      rw [findFontForChar_err_eq env cache ch hc er hfl] at h
      simp at h
    | ok list =>
      cases hr : (searchList env ch 3 (list.drop 3)).1 with
      | none =>
        rw [findFontForChar_ok_none_eq env cache ch list hc hfl hr] at h
        simp at h
      | some f =>
        rw [findFontForChar_ok_some_eq env cache ch list f hc hfl hr]

/-- Witness for C10 at the concrete matching environment. -/
theorem c10_success_no_mutation_witness :
    (findFontForChar envMatch emptyCache 65).cache = emptyCache :=
  c10_success_no_mutation envMatch emptyCache 65 "fontB" (by decide)
